import Mathlib

/-!
Verification of `src/infrastructure/lib/apollo/withApollo.jsx`.

The file under verification wires an Apollo GraphQL client into a Next.js
page lifecycle.  We give a shallow embedding of its three pieces:

* the error link installed by `createApolloClient` (lines 134-152), embedded
  as a pure function from the error event to the list of toast invocations;
* the client factory `createApolloClient` / `initApolloClient`
  (lines 104-163), with the module-level singleton variable `apolloClient`
  (line 12) embedded as explicit state, and client identity embedded as a
  fresh-allocation counter threaded through construction;
* the `WithApollo.getInitialProps` hook (lines 47-98), embedded as a function
  producing a trace recording the client it attached, the props it returned,
  whether the recursive render and the cache extraction happened, and what
  was logged.

The JavaScript `typeof window === "undefined"` test is embedded as an
explicit `isServer : Bool` argument.  External collaborators that are not
part of the source file (the `ToastMessage` component, the `SERVER_URL`
endpoint constant, `getDataFromTree`) are modelled from the spec, as noted
on their declarations.
-/

namespace WithApollo

/-- One definition of a GraphQL query document.  The error link reads its
`operation` field, a string such as "mutation" or "query". -/
structure Definition where
  operation : String
deriving DecidableEq

/-- The parsed GraphQL document attached to an operation. -/
structure QueryDoc where
  definitions : List Definition
deriving DecidableEq

/-- The operation object handed to the error link callback. -/
structure Operation where
  query : QueryDoc
deriving DecidableEq

/-- Modelled from the spec: the severity kinds of the external `ToastMessage`
collaborator (the `type` object imported at line 9; the component itself is
not part of this file).  Only `ERROR` is used here. -/
inductive ToastKind where
  | ERROR
deriving DecidableEq

/-- JavaScript `String.prototype.includes`, as used at line 142 of the
source: `sub` occurs contiguously inside `s`. -/
def jsIncludes (s sub : String) : Bool :=
  s.toList.tails.any (fun t => sub.toList.isPrefixOf t)

/-- The message rewrite of lines 142-144: a message mentioning an unresolved
variable (it contains the substring `Variable "$`) is replaced by the generic
fallback, any other message passes through verbatim. -/
def sanitizeMessage (message : String) : String :=
  if jsIncludes message "Variable \"$" then
    "Error processing request please try again"
  else message

/-- The `onError` link callback of lines 134-152, embedded as the list of
`ToastMessage` invocations (kind and message) it performs.

`graphQLErrors = none` embeds an absent (falsy) `graphQLErrors` field and
`some errs` an array of error messages; `networkError` is destructured by the
source but never read.  The result is `none` exactly when the unguarded
`operation.query.definitions[0].operation` access throws, that is when the
definitions list is empty: with a truthy `graphQLErrors` the first `if`
connective reaches the access, and with a falsy one the second `if` condition
performs the same access unconditionally. -/
def onErrorLink (graphQLErrors : Option (List String)) (networkError : Option String)
    (operation : Operation) : Option (List (ToastKind × String)) :=
  match operation.query.definitions with
  | [] => none
  | d :: _ =>
    if graphQLErrors.isSome && (d.operation == "mutation") then
      some ((graphQLErrors.getD []).map (fun m => (ToastKind.ERROR, sanitizeMessage m)))
    else if d.operation == "mutation" then
      some [(ToastKind.ERROR, "Network error")]
    else
      some []

/-- Claim C5: for every GraphQL error on a mutation operation, the toast shown
carries the generic fallback string "Error processing request please try
again" when the raw message contains the unresolved-variable substring, and
otherwise the raw server error message verbatim, one toast per error entry. -/
theorem onError_mutation_toast_messages (errs : List String)
    (networkError : Option String) (rest : List Definition) :
    onErrorLink (some errs) networkError ⟨⟨⟨"mutation"⟩ :: rest⟩⟩ =
      some (errs.map (fun m =>
        (ToastKind.ERROR,
          if jsIncludes m "Variable \"$" then "Error processing request please try again"
          else m))) := by
  simp [onErrorLink, sanitizeMessage]

/-- A mutation operation whose document has a single definition. -/
def mutationOpExample : Operation := ⟨⟨[⟨"mutation"⟩]⟩⟩

/-- Claim C6 counterexample: an error event carrying both one GraphQL error
and a network-level failure on a mutation produces exactly one toast (the
per-entry one); the early `return` at line 147 means no additional generic
"Network error" toast fires, contradicting "once per GraphQL error entry,
plus once for a transport-level failure". -/
theorem onError_both_failures_single_toast :
    onErrorLink (some ["boom"]) (some "offline") mutationOpExample
      = some [(ToastKind.ERROR, "boom")] ∧
    onErrorLink (some ["boom"]) (some "offline") mutationOpExample ≠
      some [(ToastKind.ERROR, "boom"), (ToastKind.ERROR, "Network error")] := by
  constructor
  · decide
  · decide

/-- Claim C6 (amended): on a mutation, when a `graphQLErrors` array is present
the toast fires exactly once per error entry and nothing else fires, even if a
transport-level failure accompanies the GraphQL errors; when `graphQLErrors`
is absent, exactly one generic "Network error" toast fires, whether or not a
network error object is present. -/
theorem onError_mutation_toast_count (errs : List String)
    (networkError : Option String) (rest : List Definition) :
    onErrorLink (some errs) networkError ⟨⟨⟨"mutation"⟩ :: rest⟩⟩ =
      some (errs.map (fun m => (ToastKind.ERROR, sanitizeMessage m))) ∧
    onErrorLink none networkError ⟨⟨⟨"mutation"⟩ :: rest⟩⟩ =
      some [(ToastKind.ERROR, "Network error")] := by
  constructor <;> simp [onErrorLink]

/-- Claim C7: for a non-mutation operation the error link never fires a
toast, whatever combination of GraphQL-level and network-level errors the
event carries. -/
theorem onError_query_never_toasts (graphQLErrors : Option (List String))
    (networkError : Option String) (d : Definition) (rest : List Definition)
    (hd : d.operation ≠ "mutation") :
    onErrorLink graphQLErrors networkError ⟨⟨d :: rest⟩⟩ = some [] := by
  simp [onErrorLink, hd]

/-- Witness for C7 at a concrete query operation with both error kinds. -/
theorem onError_query_never_toasts_witness :
    (Definition.mk "query").operation ≠ "mutation" ∧
    onErrorLink (some ["boom"]) (some "offline") ⟨⟨[⟨"query"⟩]⟩⟩ = some [] :=
  ⟨by decide,
    onError_query_never_toasts (some ["boom"]) (some "offline") ⟨"query"⟩ [] (by decide)⟩

/-- Claim C10: the error link classifies the operation by its first definition
only: on an empty definitions list the unguarded `definitions[0].operation`
access throws (embedded as `none`), on a non-empty list the link is
well-defined, and the toast decision is unchanged by everything after the
first definition. -/
theorem onError_reads_first_definition_only (graphQLErrors : Option (List String))
    (networkError : Option String) (d : Definition) (rest1 rest2 : List Definition) :
    onErrorLink graphQLErrors networkError ⟨⟨[]⟩⟩ = none ∧
    onErrorLink graphQLErrors networkError ⟨⟨d :: rest1⟩⟩ =
      onErrorLink graphQLErrors networkError ⟨⟨d :: rest2⟩⟩ ∧
    (onErrorLink graphQLErrors networkError ⟨⟨d :: rest1⟩⟩).isSome = true := by
  refine ⟨rfl, rfl, ?_⟩
  simp only [onErrorLink]
  split
  · simp
  · split <;> simp

/-- Modelled from the spec: the environment-derived GraphQL endpoint URL,
imported at line 10 from the endpoints config module, which is not part of
this file.  It is an opaque constant string as far as this file goes. -/
def SERVER_URL : String := "SERVER_URL"

/-- A cache snapshot: the serializable normalized-cache mapping. -/
abbrev Cache := List (String × String)

/-- An inbound request header map, looked up by header name. -/
abbrev Headers := List (String × String)

/-- Property read on a headers object, such as `headers.cookie`. -/
def getHeader (h : Headers) (name : String) : Option String :=
  (h.find? (fun p => p.1 == name)).map (fun p => p.2)

/-- The configuration the source passes to `new HttpLink` at lines 153-159:
the endpoint URI, the credentials mode, and the outbound headers object. -/
structure HttpLinkConfig where
  uri : String
  credentials : String
  headersObj : List (String × Option String)
deriving DecidableEq

/-- A constructed Apollo client.  `id` embeds object identity: every call to
the constructor hands out a fresh `id`, so two clients are the same instance
exactly when they are equal in the model. -/
structure ApolloClient where
  id : Nat
  ssrMode : Bool
  httpLink : HttpLinkConfig
  cache : Cache
deriving DecidableEq

/-- `new InMemoryCache().restore(initialState)` (line 161): a null or absent
initial state yields an empty cache, otherwise the snapshot is restored. -/
def restoreCache (initialState : Option Cache) : Cache :=
  initialState.getD []

/-- `createApolloClient` (lines 130-163), with a fresh-allocation counter for
instance identity: the new client takes the current counter as its `id` and
the counter advances.  The outbound headers object is literally
`\x7b cookie: headers && headers.cookie \x7d`: a single `cookie` key, holding the
inbound cookie header when an inbound headers object was given. -/
def createApolloClient (isServer : Bool) (initialState : Option Cache)
    (headers : Option Headers) (nextId : Nat) : ApolloClient × Nat :=
  (⟨nextId, isServer,
    ⟨SERVER_URL, "include", [("cookie", headers.bind (fun h => getHeader h "cookie"))]⟩,
    restoreCache initialState⟩,
   nextId + 1)

/-- The module-level mutable state: the singleton variable `apolloClient`
declared at line 12, plus the fresh-allocation counter. -/
structure ModuleState where
  apolloClient : Option ApolloClient
  nextId : Nat
deriving DecidableEq

/-- The state at module load: `let apolloClient = null` and no client ever
constructed. -/
def initialModuleState : ModuleState := ⟨none, 0⟩

/-- `initApolloClient` (lines 110-123).  On the server a fresh client is
always constructed and the singleton variable is left alone; in the browser
the stored singleton is returned when present, and otherwise one client is
constructed (without forwarding headers) and stored. -/
def initApolloClient (isServer : Bool) (initialState : Option Cache)
    (header : Option Headers) (st : ModuleState) : ApolloClient × ModuleState :=
  if isServer then
    let p := createApolloClient isServer initialState header st.nextId
    (p.1, ⟨st.apolloClient, p.2⟩)
  else
    match st.apolloClient with
    | some c => (c, st)
    | none =>
      let p := createApolloClient isServer initialState none st.nextId
      (p.1, ⟨some p.1, p.2⟩)

/-- The arguments of one `initApolloClient` invocation. -/
structure Call where
  isServer : Bool
  initialState : Option Cache
  header : Option Headers
deriving DecidableEq

/-- A sequence of `initApolloClient` invocations threaded through the module
state, returning the clients handed out in order. -/
def runCalls : List Call → ModuleState → List ApolloClient × ModuleState
  | [], st => ([], st)
  | c :: cs, st =>
    let r := initApolloClient c.isServer c.initialState c.header st
    let rest := runCalls cs r.2
    (r.1 :: rest.1, rest.2)

theorem initApolloClient_server_eq (initialState : Option Cache)
    (header : Option Headers) (st : ModuleState) :
    initApolloClient true initialState header st =
      ((createApolloClient true initialState header st.nextId).1,
        ⟨st.apolloClient, st.nextId + 1⟩) := by
  simp [initApolloClient, createApolloClient]

theorem initApolloClient_nextId_mono (isServer : Bool) (initialState : Option Cache)
    (header : Option Headers) (st : ModuleState) :
    st.nextId ≤ (initApolloClient isServer initialState header st).2.nextId := by
  cases isServer
  · cases hsc : st.apolloClient <;>
      simp [initApolloClient, hsc, createApolloClient]
  · simp [initApolloClient, createApolloClient]

theorem runCalls_nextId_mono (cs : List Call) (st : ModuleState) :
    st.nextId ≤ (runCalls cs st).2.nextId := by
  induction cs generalizing st with
  | nil => simp [runCalls]
  | cons c cs ih =>
    simp only [runCalls]
    exact le_trans (initApolloClient_nextId_mono c.isServer c.initialState c.header st)
      (ih _)

/-- Claim C1: in a server execution context `initApolloClient` always
constructs and returns a brand-new client seeded with the given initial
state: for any two server invocations, separated by arbitrary other
invocations before and between them, each returned client's cache is the
restored initial state of its own call, and the two returned clients are
distinct instances. -/
theorem initApolloClient_server_always_fresh (cs1 cs2 : List Call)
    (i1 i2 : Option Cache) (h1 h2 : Option Headers) (st : ModuleState) :
    (initApolloClient true i1 h1 (runCalls cs1 st).2).1.cache = restoreCache i1 ∧
    (initApolloClient true i2 h2
        (runCalls cs2 (initApolloClient true i1 h1 (runCalls cs1 st).2).2).2).1.cache
      = restoreCache i2 ∧
    (initApolloClient true i1 h1 (runCalls cs1 st).2).1 ≠
      (initApolloClient true i2 h2
        (runCalls cs2 (initApolloClient true i1 h1 (runCalls cs1 st).2).2).2).1 := by
  refine ⟨by simp [initApolloClient_server_eq, createApolloClient],
    by simp [initApolloClient_server_eq, createApolloClient], ?_⟩
  have hm := runCalls_nextId_mono cs2 (initApolloClient true i1 h1 (runCalls cs1 st).2).2
  intro heq
  have hid := congrArg ApolloClient.id heq
  rw [initApolloClient_server_eq i1 h1 (runCalls cs1 st).2] at hid hm
  rw [initApolloClient_server_eq] at hid
  simp [createApolloClient] at hid hm
  omega

theorem initApolloClient_browser_reuse (initialState : Option Cache)
    (header : Option Headers) (st : ModuleState) (c : ApolloClient)
    (hc : st.apolloClient = some c) :
    initApolloClient false initialState header st = (c, st) := by
  simp [initApolloClient, hc]

theorem runCalls_browser_all_reuse (cs : List Call) (st : ModuleState)
    (c : ApolloClient) (hc : st.apolloClient = some c)
    (hb : ∀ x ∈ cs, x.isServer = false) :
    runCalls cs st = (List.replicate cs.length c, st) := by
  induction cs with
  | nil => simp [runCalls]
  | cons x cs ih =>
    have hx : x.isServer = false := hb x (List.mem_cons_self x cs)
    simp only [runCalls]
    rw [show initApolloClient x.isServer x.initialState x.header st = (c, st) from by
      rw [hx]; exact initApolloClient_browser_reuse x.initialState x.header st c hc]
    rw [ih (fun y hy => hb y (List.mem_cons_of_mem x hy))]
    simp [List.replicate_succ]

/-- Claim C2: in a browser execution context, the first `initApolloClient`
call constructs exactly one client (the counter advances once) and stores it
in the module-level singleton variable, and every subsequent browser call in
the sequence returns that same stored instance with the state untouched, so
nothing further is constructed. -/
theorem initApolloClient_browser_singleton (i : Option Cache) (h : Option Headers)
    (st : ModuleState) (hnone : st.apolloClient = none)
    (cs : List Call) (hb : ∀ x ∈ cs, x.isServer = false) :
    (initApolloClient false i h st).2.apolloClient =
      some (initApolloClient false i h st).1 ∧
    (initApolloClient false i h st).2.nextId = st.nextId + 1 ∧
    runCalls cs (initApolloClient false i h st).2 =
      (List.replicate cs.length (initApolloClient false i h st).1,
        (initApolloClient false i h st).2) := by
  have he : initApolloClient false i h st =
      ((createApolloClient false i none st.nextId).1,
        ⟨some (createApolloClient false i none st.nextId).1, st.nextId + 1⟩) := by
    simp [initApolloClient, hnone, createApolloClient]
  rw [he]
  exact ⟨rfl, rfl, runCalls_browser_all_reuse cs _ _ rfl hb⟩

/-- Witness for C2: from the freshly loaded module, one browser call followed
by two further browser calls hands out a single stored instance. -/
theorem initApolloClient_browser_singleton_witness :
    initialModuleState.apolloClient = none ∧
    (∀ x ∈ [Call.mk false none none, Call.mk false none none], x.isServer = false) ∧
    ((initApolloClient false none none initialModuleState).2.apolloClient =
        some (initApolloClient false none none initialModuleState).1 ∧
      (initApolloClient false none none initialModuleState).2.nextId =
        initialModuleState.nextId + 1 ∧
      runCalls [Call.mk false none none, Call.mk false none none]
          (initApolloClient false none none initialModuleState).2 =
        (List.replicate 2 (initApolloClient false none none initialModuleState).1,
          (initApolloClient false none none initialModuleState).2)) :=
  ⟨rfl, by decide,
    initApolloClient_browser_singleton none none initialModuleState rfl
      [Call.mk false none none, Call.mk false none none] (by decide)⟩

/-- Claim C9: the outbound HTTP link configuration depends on the inbound
headers only through the `cookie` field: two inbound header maps agreeing on
`cookie` yield identical link configurations, and the configured headers
object consists of exactly the one `cookie` entry, so every other inbound
header is dropped. -/
theorem createApolloClient_cookie_only (isServer : Bool) (initialState : Option Cache)
    (h1 h2 : Headers) (n : Nat)
    (hc : getHeader h1 "cookie" = getHeader h2 "cookie") :
    (createApolloClient isServer initialState (some h1) n).1.httpLink =
      (createApolloClient isServer initialState (some h2) n).1.httpLink ∧
    (createApolloClient isServer initialState (some h1) n).1.httpLink.headersObj =
      [("cookie", getHeader h1 "cookie")] := by
  simp [createApolloClient, hc]

/-- Witness for C9: two header maps sharing the cookie but differing in an
extra header configure the same link, forwarding only the cookie. -/
theorem createApolloClient_cookie_only_witness :
    getHeader [("cookie", "sid=1"), ("x-forwarded-for", "10.0.0.1")] "cookie" =
      getHeader [("host", "example.org"), ("cookie", "sid=1")] "cookie" ∧
    ((createApolloClient true none
          (some [("cookie", "sid=1"), ("x-forwarded-for", "10.0.0.1")]) 0).1.httpLink =
        (createApolloClient true none
          (some [("host", "example.org"), ("cookie", "sid=1")]) 0).1.httpLink ∧
      (createApolloClient true none
          (some [("cookie", "sid=1"), ("x-forwarded-for", "10.0.0.1")]) 0).1.httpLink.headersObj =
        [("cookie", getHeader [("cookie", "sid=1"), ("x-forwarded-for", "10.0.0.1")] "cookie")]) :=
  ⟨by decide,
    createApolloClient_cookie_only true none
      [("cookie", "sid=1"), ("x-forwarded-for", "10.0.0.1")]
      [("host", "example.org"), ("cookie", "sid=1")] 0 (by decide)⟩

/-- The base page props returned by the wrapped component's own
`getInitialProps`. -/
abbrev PageProps := List (String × String)

/-- The props object returned by `WithApollo.getInitialProps`: the base page
props, and the cache snapshot when the `apolloState` key was added by the
final merge at lines 94-97 (`none` embeds the early return at line 67, which
returns the bare `pageProps` object without that key). -/
structure GIPResult where
  pageProps : PageProps
  apolloState : Option Cache
deriving DecidableEq

/-- The request context handed to `WithApollo.getInitialProps`: the execution
environment, the inbound request headers reached through
`ctx.ctx.req.headers` when present, and the response object (`some finished`
when `ctx.res` exists, carrying its `finished` flag). -/
structure Ctx where
  isServer : Bool
  reqHeaders : Option Headers
  res : Option Bool
deriving DecidableEq

/-- Everything one invocation of `WithApollo.getInitialProps` did: the client
it attached to the context, the base props the wrapped hook produced, the
returned props object, whether `getDataFromTree` was attempted, whether
`cache.extract()` ran, the `console.error` log entries, and the module state
afterwards. -/
structure GIPTrace where
  client : ApolloClient
  basePageProps : PageProps
  result : GIPResult
  didRender : Bool
  didExtract : Bool
  logs : List (String × String)
  st : ModuleState
deriving DecidableEq

/-- `WithApollo.getInitialProps` (lines 47-98).  `pageGIP` is the wrapped
component's own `getInitialProps` when it declares one; it receives the
client because the hook assigns `ctx.apolloClient` before invoking it.
`renderOutcome` embeds the externally delegated `getDataFromTree` call
(modelled from the spec as an opaque collaborator that either completes or
throws): a thrown error is caught and logged at line 82, never re-thrown,
which the embedding reflects by returning a total trace whose `logs` carry
the `console.error` arguments. -/
def withApolloGetInitialProps (ssr : Bool) (pageGIP : Option (ApolloClient → PageProps))
    (ctx : Ctx) (renderOutcome : Except String Unit) (st : ModuleState) : GIPTrace :=
  let r := initApolloClient ctx.isServer none ctx.reqHeaders st
  let pageProps : PageProps :=
    match pageGIP with
    | some f => f r.1
    | none => []
  let tail : GIPResult × Bool × Bool × List (String × String) :=
    if ctx.isServer then
      if ctx.res = some true then
        (⟨pageProps, none⟩, false, false, [])
      else if ssr then
        match renderOutcome with
        | Except.ok _ => (⟨pageProps, some r.1.cache⟩, true, true, [])
        | Except.error e =>
          (⟨pageProps, some r.1.cache⟩, true, true,
            [("Error while running getDataFromTree", e)])
      else
        (⟨pageProps, some r.1.cache⟩, false, true, [])
    else
      (⟨pageProps, some r.1.cache⟩, false, true, [])
  ⟨r.1, pageProps, tail.1, tail.2.1, tail.2.2.1, tail.2.2.2, r.2⟩

/-- A client already stored in the browser singleton before the hook runs. -/
def preexistingClient : ApolloClient := (createApolloClient false none none 0).1

/-- Module state in which the singleton already holds a client. -/
def singletonState : ModuleState := ⟨some preexistingClient, 1⟩

/-- A browser-side invocation context (client-side navigation). -/
def browserCtx : Ctx := ⟨false, none, none⟩

/-- Claim C3 counterexample: invoked in a browser execution context with an
existing singleton (a client-side navigation), the hook attaches the reused
singleton instance to the context and constructs nothing: the module state is
unchanged, so the attached client is not fresh. -/
theorem getInitialProps_browser_reuses_singleton :
    (withApolloGetInitialProps true none browserCtx (Except.ok ()) singletonState).client
      = preexistingClient ∧
    (withApolloGetInitialProps true none browserCtx (Except.ok ()) singletonState).st
      = singletonState := by
  constructor <;> rfl

/-- Claim C3 (amended): every invocation of `WithApollo.getInitialProps` in a
server execution context creates a fresh client instance — its id is the
current allocation counter, the counter advances by one, and it differs from
any previously stored singleton — attaches it to the request context, and the
wrapped component's own initial-data hook runs against that attached client.
(In a browser execution context the hook instead attaches the possibly reused
singleton.) -/
theorem getInitialProps_server_fresh_client (ssr : Bool)
    (pageGIP : Option (ApolloClient → PageProps)) (ctx : Ctx)
    (renderOutcome : Except String Unit) (st : ModuleState)
    (hs : ctx.isServer = true) :
    (withApolloGetInitialProps ssr pageGIP ctx renderOutcome st).client.id = st.nextId ∧
    (withApolloGetInitialProps ssr pageGIP ctx renderOutcome st).st.nextId = st.nextId + 1 ∧
    (∀ c, st.apolloClient = some c → c.id < st.nextId →
      (withApolloGetInitialProps ssr pageGIP ctx renderOutcome st).client ≠ c) ∧
    (∀ f, pageGIP = some f →
      (withApolloGetInitialProps ssr pageGIP ctx renderOutcome st).basePageProps =
        f (withApolloGetInitialProps ssr pageGIP ctx renderOutcome st).client) := by
  have hcl : (withApolloGetInitialProps ssr pageGIP ctx renderOutcome st).client =
      (initApolloClient ctx.isServer none ctx.reqHeaders st).1 := rfl
  have hst : (withApolloGetInitialProps ssr pageGIP ctx renderOutcome st).st =
      (initApolloClient ctx.isServer none ctx.reqHeaders st).2 := rfl
  refine ⟨?_, ?_, ?_, ?_⟩
  · rw [hcl, hs, initApolloClient_server_eq]
    rfl
  · rw [hst, hs, initApolloClient_server_eq]
  · intro c hc hlt heq
    have hid := congrArg ApolloClient.id heq
    rw [hcl, hs, initApolloClient_server_eq] at hid
    simp [createApolloClient] at hid
    omega
  · intro f hf
    rw [hf]
    rfl

/-- Witness for C3 (amended) at a concrete server context, with a singleton
left over in the module state. -/
theorem getInitialProps_server_fresh_client_witness :
    (Ctx.mk true none none).isServer = true ∧
    ((withApolloGetInitialProps true none (Ctx.mk true none none) (Except.ok ())
        singletonState).client.id = singletonState.nextId ∧
      (withApolloGetInitialProps true none (Ctx.mk true none none) (Except.ok ())
        singletonState).st.nextId = singletonState.nextId + 1 ∧
      (∀ c, singletonState.apolloClient = some c → c.id < singletonState.nextId →
        (withApolloGetInitialProps true none (Ctx.mk true none none) (Except.ok ())
          singletonState).client ≠ c) ∧
      (∀ f, (none : Option (ApolloClient → PageProps)) = some f →
        (withApolloGetInitialProps true none (Ctx.mk true none none) (Except.ok ())
          singletonState).basePageProps =
          f (withApolloGetInitialProps true none (Ctx.mk true none none) (Except.ok ())
            singletonState).client)) :=
  ⟨rfl,
    getInitialProps_server_fresh_client true none (Ctx.mk true none none)
      (Except.ok ()) singletonState rfl⟩

/-- Claim C4: when the response is already finished during a server prefetch,
the hook returns exactly the wrapped component's base result: no `apolloState`
key is added, no recursive render is attempted, and no cache extraction
occurs. -/
theorem getInitialProps_finished_returns_base (ssr : Bool)
    (pageGIP : Option (ApolloClient → PageProps)) (ctx : Ctx)
    (renderOutcome : Except String Unit) (st : ModuleState)
    (hs : ctx.isServer = true) (hf : ctx.res = some true) :
    (withApolloGetInitialProps ssr pageGIP ctx renderOutcome st).result =
      ⟨(withApolloGetInitialProps ssr pageGIP ctx renderOutcome st).basePageProps, none⟩ ∧
    (withApolloGetInitialProps ssr pageGIP ctx renderOutcome st).didRender = false ∧
    (withApolloGetInitialProps ssr pageGIP ctx renderOutcome st).didExtract = false := by
  simp [withApolloGetInitialProps, hs, hf]

/-- Witness for C4 at a concrete finished response. -/
theorem getInitialProps_finished_returns_base_witness :
    (Ctx.mk true none (some true)).isServer = true ∧
    (Ctx.mk true none (some true)).res = some true ∧
    ((withApolloGetInitialProps true none (Ctx.mk true none (some true)) (Except.ok ())
        initialModuleState).result =
      ⟨(withApolloGetInitialProps true none (Ctx.mk true none (some true)) (Except.ok ())
          initialModuleState).basePageProps, none⟩ ∧
      (withApolloGetInitialProps true none (Ctx.mk true none (some true)) (Except.ok ())
        initialModuleState).didRender = false ∧
      (withApolloGetInitialProps true none (Ctx.mk true none (some true)) (Except.ok ())
        initialModuleState).didExtract = false) :=
  ⟨rfl, rfl,
    getInitialProps_finished_returns_base true none (Ctx.mk true none (some true))
      (Except.ok ()) initialModuleState rfl rfl⟩

/-- Claim C8: when `getDataFromTree` throws during the server-side prefetch
with SSR enabled, the failure is caught and logged with the
`console.error` prefix of line 82, the hook still completes normally (the
embedding is a total function, so nothing propagates), and it returns the
base props merged with the extracted cache snapshot under the `apolloState`
key. -/
theorem getInitialProps_render_failure_swallowed
    (pageGIP : Option (ApolloClient → PageProps)) (ctx : Ctx) (e : String)
    (st : ModuleState) (hs : ctx.isServer = true) (hf : ctx.res ≠ some true) :
    (withApolloGetInitialProps true pageGIP ctx (Except.error e) st).logs =
      [("Error while running getDataFromTree", e)] ∧
    (withApolloGetInitialProps true pageGIP ctx (Except.error e) st).result =
      ⟨(withApolloGetInitialProps true pageGIP ctx (Except.error e) st).basePageProps,
        some (withApolloGetInitialProps true pageGIP ctx (Except.error e) st).client.cache⟩ ∧
    (withApolloGetInitialProps true pageGIP ctx (Except.error e) st).didExtract = true := by
  simp [withApolloGetInitialProps, hs, hf]

/-- Witness for C8 at a concrete failing render. -/
theorem getInitialProps_render_failure_swallowed_witness :
    (Ctx.mk true none none).isServer = true ∧
    (Ctx.mk true none none).res ≠ some true ∧
    ((withApolloGetInitialProps true none (Ctx.mk true none none)
        (Except.error "boom") initialModuleState).logs =
      [("Error while running getDataFromTree", "boom")] ∧
      (withApolloGetInitialProps true none (Ctx.mk true none none)
          (Except.error "boom") initialModuleState).result =
        ⟨(withApolloGetInitialProps true none (Ctx.mk true none none)
            (Except.error "boom") initialModuleState).basePageProps,
          some (withApolloGetInitialProps true none (Ctx.mk true none none)
            (Except.error "boom") initialModuleState).client.cache⟩ ∧
      (withApolloGetInitialProps true none (Ctx.mk true none none)
          (Except.error "boom") initialModuleState).didExtract = true) :=
  ⟨rfl, by decide,
    getInitialProps_render_failure_swallowed none (Ctx.mk true none none) "boom"
      initialModuleState rfl (by decide)⟩

end WithApollo
